import Mathlib

/-!
Verification of `pants.backend.go.subsystems.gotest` (`GoTestSubsystem`),
file `src/python/pants/backend/go/subsystems/gotest.py`.

The subsystem's behavioural content is:
* the option defaults declared in the class body,
* the `coverage_output_dir` method, which escapes the Go import path
  (replacing every slash with an underscore), substitutes the escaped path
  and the dist directory into the `--coverage-output-dir` template via
  Python's `str.format`, and wraps the result in `pathlib.PurePath`,
* the sanitizer force flags (`force_race`, `force_msan`, `force_asan`)
  whose resolution against the per-target fields is performed by the
  test rules (outside this file; modelled from the spec where needed).

Python `str.format` is embedded faithfully for the fragment it is used on
here: keyword fields with simple names, the double-brace escapes, and the
errors `KeyError` (unknown field name) and `ValueError` (stray single
brace).  `pathlib.PurePath` string normalisation (POSIX flavour) is
embedded as `purePosixPathStr`.
-/

namespace GoTest

/-- The `GoCoverMode` enum from `pants.backend.go.util_rules.coverage`
(imported by the source file; its values are the strings `set`, `count`,
`atomic`). -/
inductive GoCoverMode where
  | SET
  | COUNT
  | ATOMIC
  deriving DecidableEq, Repr

/-- Modelled from the spec: the option system's `EnumOption` validation for
`--cover-mode` (the `EnumOption` machinery lives in
`pants.option.option_types`, outside `src/`).  A valid value string maps to
the matching `GoCoverMode` member; any other string fails with an
`InvalidChoice` error naming the offending value and the legal set, so no
configuration instance is constructed. -/
def parse_cover_mode (s : String) : Except String GoCoverMode :=
  if s = "set" then Except.ok GoCoverMode.SET
  else if s = "count" then Except.ok GoCoverMode.COUNT
  else if s = "atomic" then Except.ok GoCoverMode.ATOMIC
  else Except.error ("InvalidChoice: " ++ s ++ " is not a member of set, count, atomic")

/-- `pants.core.util_rules.distdir.DistDir`: only its `relpath` attribute is
read by `coverage_output_dir`. -/
structure DistDir where
  relpath : String
  deriving DecidableEq, Repr

/-- Embeds line 156 of the source,
`import_path.replace("/", "_")`: Python's single-character `str.replace`
maps each occurrence of the first character to the second and leaves every
other character unchanged. -/
def escapeImportPath (s : String) : String :=
  String.mk (s.data.map (fun c => if c = '/' then '_' else c))

/-- Association-list lookup used to embed the keyword-argument mapping
passed to Python's `str.format`. -/
def lookupKey (m : List (String × String)) (k : String) : Option String :=
  match m with
  | [] => none
  | (k1, v) :: rest => if k1 = k then some v else lookupKey rest k

/-- Scan of a replacement-field name inside `str.format` markup: consume
characters until the closing brace, returning the field name and the rest
of the template; `none` when the template ends before a closing brace
(Python raises `ValueError` in that case). -/
def splitField (acc : List Char) : List Char → Option (String × List Char)
  | [] => none
  | c :: rest =>
      if c = '}' then some (String.mk acc.reverse, rest)
      else splitField (c :: acc) rest

/-- Fuel-indexed core of the `str.format` embedding.  One unit of fuel is
spent per parsing step and each step consumes at least one template
character, so fuel equal to the template length (as supplied by
`pyFormat`) never runs out; the fuel branch only makes the recursion
structural. -/
def formatGo (m : List (String × String)) : Nat → List Char → Except String (List Char)
  | _, [] => Except.ok []
  | 0, _ :: _ => Except.error "format: out of fuel"
  | fuel + 1, '{' :: '{' :: rest => (formatGo m fuel rest).map (fun t => '{' :: t)
  | fuel + 1, '}' :: '}' :: rest => (formatGo m fuel rest).map (fun t => '}' :: t)
  | fuel + 1, '{' :: rest =>
      match splitField [] rest with
      | none => Except.error "ValueError: expected closing brace before end of string"
      | some (name, rest2) =>
          match lookupKey m name with
          | none => Except.error ("KeyError: " ++ name)
          | some v => (formatGo m fuel rest2).map (fun t => v.data ++ t)
  | _ + 1, '}' :: _ => Except.error "ValueError: single closing brace encountered in format string"
  | fuel + 1, c :: rest => (formatGo m fuel rest).map (fun t => c :: t)

/-- Embeds Python's `template.format(**mapping)` for the fragment used by
the source: literal text is copied, `\x7b\x7b` and `\x7d\x7d` are escapes
for single braces, `\x7bname\x7d` is replaced by `mapping[name]` (inserted
verbatim, in a single pass), an unknown name raises `KeyError`, and a
stray single brace raises `ValueError`. -/
def pyFormat (m : List (String × String)) (s : String) : Except String String :=
  (formatGo m s.data.length s.data).map String.mk

/-- Split of a character list at every slash; like Python's
`s.split("/")`, the result always has one more component than the input
has slashes. -/
def splitOnSlash : List Char → List (List Char)
  | [] => [[]]
  | '/' :: rest => [] :: splitOnSlash rest
  | c :: rest =>
      match splitOnSlash rest with
      | [] => [[c]]
      | comp :: comps => (c :: comp) :: comps

/-- Join of path components with slashes, the inverse direction of
`splitOnSlash`. -/
def joinSlash : List (List Char) → List Char
  | [] => []
  | [c] => c
  | c :: cs => c ++ '/' :: joinSlash cs

/-- The root prefix `pathlib` keeps for a POSIX path: `/` for an absolute
path, the POSIX special case `//` for exactly two leading slashes, empty
for a relative path. -/
def posixRoot : List Char → String
  | '/' :: '/' :: '/' :: _ => "/"
  | '/' :: '/' :: _ => "//"
  | '/' :: _ => "/"
  | _ => ""

/-- Embeds `str(pathlib.PurePath(s))` with the POSIX flavour: the path is
split on slashes, empty components and sole-dot components are dropped, a
leading root (`/`, or the POSIX special case `//`) is preserved, and an
empty result renders as the current-directory dot. -/
def purePosixPathStr (s : String) : String :=
  let comps := (splitOnSlash s.data).filter (fun c => !(c == [] || c == ['.']))
  let root := posixRoot s.data
  if comps.isEmpty then (if root = "" then "." else root)
  else root ++ String.mk (joinSlash comps)

/-- The default of the `--coverage-output-dir` option, line 60 of the
source: `str(PurePath("\x7bdistdir\x7d", "coverage", "go",
"\x7bimport_path_escaped\x7d"))`, which on POSIX is the four segments
joined with slashes. -/
def default_coverage_output_dir_template : String :=
  "\x7bdistdir\x7d/coverage/go/\x7bimport_path_escaped\x7d"

/-- The option state of `GoTestSubsystem` (options scope `go-test`): one
field per option declared in the class body.  `coverage_output_dir_template`
embeds the private `_coverage_output_dir` string option. -/
structure GoTestSubsystem where
  coverage_mode : GoCoverMode
  coverage_output_dir_template : String
  coverage_html : Bool
  coverage_include_patterns : List String
  skip : Bool
  force_race : Bool
  force_msan : Bool
  force_asan : Bool
  deriving DecidableEq, Repr

/-- The subsystem as constructed with no options overridden: each field
takes the `default=` value of its option declaration (`coverage_mode` from
line 46, `_coverage_output_dir` from line 60, `coverage_html` from
line 73, `coverage_include_patterns` from line 83, the three force flags
from lines 114, 127, 140).  `skip` is a `SkipOption`, declared in
`pants.option.option_types` outside `src/`; its default `False` is
modelled from the spec. -/
def GoTestSubsystem.default : GoTestSubsystem where
  coverage_mode := GoCoverMode.SET
  coverage_output_dir_template := default_coverage_output_dir_template
  coverage_html := true
  coverage_include_patterns := []
  skip := false
  force_race := false
  force_msan := false
  force_asan := false

/-- Embeds lines 155 to 161 of the source:
`coverage_output_dir(self, distdir, import_path)` escapes the import path,
formats the template with `distdir=distdir.relpath` and
`import_path_escaped=` the escaped path, and returns
`PurePath(...)` of the result.  A `KeyError` or `ValueError` escaping from
`str.format` propagates as `Except.error`. -/
def GoTestSubsystem.coverage_output_dir (self : GoTestSubsystem) (distdir : DistDir)
    (import_path : String) : Except String String :=
  let import_path_escaped := escapeImportPath import_path
  (pyFormat [("distdir", distdir.relpath), ("import_path_escaped", import_path_escaped)]
      self.coverage_output_dir_template).map purePosixPathStr

/-- Modelled from the spec: the test rules resolve each sanitizer toggle
as the global force flag OR the per-target field value, the per-target
value defaulting to `false` when the target declares no opinion (the
rules live outside `src/`; the source file only declares the force
flags). -/
def resolveSanitizers (force : Bool) (perTarget : Option Bool) : Bool :=
  force || perTarget.getD false

/-- Modelled from the spec: race-detector resolution applies
`resolveSanitizers` to `force_race`. -/
def GoTestSubsystem.resolve_race (self : GoTestSubsystem) (perTarget : Option Bool) : Bool :=
  resolveSanitizers self.force_race perTarget

/-- Modelled from the spec: memory-sanitizer resolution applies
`resolveSanitizers` to `force_msan`. -/
def GoTestSubsystem.resolve_msan (self : GoTestSubsystem) (perTarget : Option Bool) : Bool :=
  resolveSanitizers self.force_msan perTarget

/-- Modelled from the spec: address-sanitizer resolution applies
`resolveSanitizers` to `force_asan`. -/
def GoTestSubsystem.resolve_asan (self : GoTestSubsystem) (perTarget : Option Bool) : Bool :=
  resolveSanitizers self.force_asan perTarget

/-- C1 (counterexample): the claim that an unknown placeholder passes
through untouched is false on the code.  With the template
`\x7bdistdir\x7d/\x7bunknown\x7d` and distdir `d`, `coverage_output_dir`
propagates Python's `KeyError` for the unknown field name, which is not
the claimed result `d/\x7bunknown\x7d`. -/
theorem unknown_placeholder_not_passthrough :
    ({ GoTestSubsystem.default with
        coverage_output_dir_template := "\x7bdistdir\x7d/\x7bunknown\x7d" } :
      GoTestSubsystem).coverage_output_dir ⟨"d"⟩ "p" = Except.error "KeyError: unknown" ∧
    (Except.error "KeyError: unknown" : Except String String) ≠ Except.ok "d/\x7bunknown\x7d" :=
  ⟨rfl, by simp⟩

/-- C1 (amended): a placeholder whose name is not in the mapping (neither
`distdir` nor `import_path_escaped`) makes `coverage_output_dir` fail with
a `KeyError` naming that placeholder — `str.format` raises rather than
passing the token through — for every import path. -/
theorem unknown_placeholder_raises_keyerror (p : String) :
    ({ GoTestSubsystem.default with
        coverage_output_dir_template := "\x7bdistdir\x7d/\x7bunknown\x7d" } :
      GoTestSubsystem).coverage_output_dir ⟨"d"⟩ p = Except.error "KeyError: unknown" := rfl

/-- C2: with the default template, distdir relative path `dist` and import
path `example.com/foo/bar`, `coverage_output_dir` returns exactly
`dist/coverage/go/example.com_foo_bar`. -/
theorem coverage_output_dir_default_example :
    GoTestSubsystem.default.coverage_output_dir ⟨"dist"⟩ "example.com/foo/bar" =
      Except.ok "dist/coverage/go/example.com_foo_bar" := rfl

/-- C3: sanitizer override resolution equals the force flag OR the
per-target value; a true force flag wins regardless of the per-target
value, otherwise the per-target value (defaulting to false when the target
declares no opinion) decides; and the race, memory-sanitizer and
address-sanitizer resolvers all apply the same `resolveSanitizers`
function to their respective flags. -/
theorem sanitizer_resolution (f p : Bool) (pt : Option Bool) (s : GoTestSubsystem) :
    resolveSanitizers f (some p) = (f || p) ∧
    (f = true → resolveSanitizers f pt = true) ∧
    (f = false → resolveSanitizers f pt = pt.getD false) ∧
    resolveSanitizers f none = resolveSanitizers f (some false) ∧
    s.resolve_race pt = resolveSanitizers s.force_race pt ∧
    s.resolve_msan pt = resolveSanitizers s.force_msan pt ∧
    s.resolve_asan pt = resolveSanitizers s.force_asan pt := by
  refine ⟨rfl, fun hf => ?_, fun hf => ?_, rfl, rfl, rfl, rfl⟩
  · simp [resolveSanitizers, hf]
  · simp [resolveSanitizers, hf]

/-- Witness for C3: the full 2-by-2 truth table of the resolution,
obtained by instantiating `sanitizer_resolution` at each corner. -/
theorem sanitizer_resolution_witness :
    resolveSanitizers true (some false) = true ∧
    resolveSanitizers false (some true) = true ∧
    resolveSanitizers false (some false) = false ∧
    resolveSanitizers true (some true) = true :=
  ⟨(sanitizer_resolution true false (some false) GoTestSubsystem.default).2.1 rfl,
   (sanitizer_resolution false true (some true) GoTestSubsystem.default).2.2.1 rfl,
   (sanitizer_resolution false false (some false) GoTestSubsystem.default).2.2.1 rfl,
   (sanitizer_resolution true true (some true) GoTestSubsystem.default).2.1 rfl⟩

/-- C4: the import-path escaping preserves length, maps the character at
every position to an underscore exactly when it is a slash and to itself
otherwise, and leaves any import path without slashes unchanged. -/
theorem escape_import_path_spec (s : String) :
    (escapeImportPath s).data.length = s.data.length ∧
    (∀ i : Nat, (escapeImportPath s).data[i]? =
      (s.data[i]?).map (fun c => if c = '/' then '_' else c)) ∧
    ((∀ c ∈ s.data, c ≠ '/') → escapeImportPath s = s) := by
  have key : ∀ l : List Char, (∀ c ∈ l, c ≠ '/') →
      l.map (fun c => if c = '/' then '_' else c) = l := by
    intro l
    induction l with
    | nil => intro _; rfl
    | cons c rest ih =>
        intro h
        simp only [List.map_cons]
        rw [if_neg (h c (List.mem_cons_self c rest)), ih
          (fun c2 hc2 => h c2 (List.mem_cons_of_mem c hc2))]
  refine ⟨by simp [escapeImportPath], fun i => ?_, fun h => ?_⟩
  · simp [escapeImportPath, List.getElem?_map]
  · simp [escapeImportPath, key s.data h]

/-- Witness for C4: `abc` has no slash and is left unchanged, by
`escape_import_path_spec` at `abc`. -/
theorem escape_import_path_spec_witness :
    (∀ c ∈ ("abc" : String).data, c ≠ '/') ∧ escapeImportPath "abc" = "abc" :=
  ⟨by decide, (escape_import_path_spec "abc").2.2 (by decide)⟩

/-- C5: substitution is single-pass.  With the default template the two
substitution values are inserted verbatim, whatever they contain — in
particular a value containing placeholder syntax is not re-expanded — and
end to end, an import path containing the text `\x7bdistdir\x7d` shows up
literally (slash-escaped) in the output path. -/
theorem format_single_pass (d e : String) :
    pyFormat [("distdir", d), ("import_path_escaped", e)]
        default_coverage_output_dir_template =
      Except.ok (d ++ ("/coverage/go/" ++ e)) ∧
    GoTestSubsystem.default.coverage_output_dir ⟨"dist"⟩ "x/\x7bdistdir\x7d" =
      Except.ok "dist/coverage/go/x_\x7bdistdir\x7d" := by
  constructor
  · have h1 : pyFormat [("distdir", d), ("import_path_escaped", e)]
        default_coverage_output_dir_template =
        Except.ok (String.mk (d.data ++ ("/coverage/go/".data ++ (e.data ++ [])))) := rfl
    have h2 : d ++ ("/coverage/go/" ++ e) =
        String.mk (d.data ++ ("/coverage/go/".data ++ e.data)) := rfl
    rw [h1, h2, List.append_nil]
  · rfl

/-- C6: the three legal coverage-mode strings validate to the matching
enum members, and every other string fails with an `InvalidChoice` error
that names the offending value and the legal set, so no configuration is
constructed. -/
theorem cover_mode_validation (s : String) :
    parse_cover_mode "set" = Except.ok GoCoverMode.SET ∧
    parse_cover_mode "count" = Except.ok GoCoverMode.COUNT ∧
    parse_cover_mode "atomic" = Except.ok GoCoverMode.ATOMIC ∧
    (s ≠ "set" → s ≠ "count" → s ≠ "atomic" →
      parse_cover_mode s =
        Except.error ("InvalidChoice: " ++ s ++ " is not a member of set, count, atomic")) :=
  ⟨rfl, rfl, rfl, fun h1 h2 h3 => by simp [parse_cover_mode, h1, h2, h3]⟩

/-- Witness for C6: the string `bogus` is rejected with the
`InvalidChoice` error, by `cover_mode_validation` at `bogus`. -/
theorem cover_mode_validation_witness :
    ("bogus" : String) ≠ "set" ∧
    parse_cover_mode "bogus" =
      Except.error "InvalidChoice: bogus is not a member of set, count, atomic" :=
  ⟨by decide, (cover_mode_validation "bogus").2.2.2 (by decide) (by decide) (by decide)⟩

/-- C7: default construction yields coverage mode SET, coverage-HTML true,
skip false, all three force flags false, and an empty include-pattern
list. -/
theorem default_option_values :
    GoTestSubsystem.default.coverage_mode = GoCoverMode.SET ∧
    GoTestSubsystem.default.coverage_html = true ∧
    GoTestSubsystem.default.skip = false ∧
    GoTestSubsystem.default.force_race = false ∧
    GoTestSubsystem.default.force_msan = false ∧
    GoTestSubsystem.default.force_asan = false ∧
    GoTestSubsystem.default.coverage_include_patterns = [] :=
  ⟨rfl, rfl, rfl, rfl, rfl, rfl, rfl⟩

/-- C8 (counterexample): the claim that expansion is the identity on every
string without placeholder tokens is false on the code.  The template
`\x7b\x7b` contains no placeholder token, yet `str.format` rewrites the
double-brace escape to a single brace, so re-expansion does not return the
input. -/
theorem expansion_not_idempotent_on_brace_escape :
    ({ GoTestSubsystem.default with coverage_output_dir_template := "\x7b\x7b" } :
      GoTestSubsystem).coverage_output_dir ⟨"dist"⟩ "p" = Except.ok "\x7b" ∧
    ("\x7b" : String) ≠ "\x7b\x7b" := ⟨rfl, by decide⟩

/-- C8 (amended): expansion is the identity on every string containing no
brace character at all; such a fully expanded string is returned unchanged
under any substitution mapping. -/
theorem expansion_identity_without_braces (m : List (String × String)) (s : String)
    (h : ∀ c ∈ s.data, c ≠ '{' ∧ c ≠ '}') : pyFormat m s = Except.ok s := by
  have key : ∀ (l : List Char) (fuel : Nat), l.length ≤ fuel →
      (∀ c ∈ l, c ≠ '{' ∧ c ≠ '}') → formatGo m fuel l = Except.ok l := by
    intro l
    induction l with
    | nil => intro fuel _ _; cases fuel <;> rfl
    | cons c rest ih =>
        intro fuel hlen hc
        cases fuel with
        | zero => simp at hlen
        | succ f =>
            obtain ⟨hc1, hc2⟩ := hc c (List.mem_cons_self c rest)
            have hrest : ∀ c2 ∈ rest, c2 ≠ '{' ∧ c2 ≠ '}' :=
              fun c2 h2 => hc c2 (List.mem_cons_of_mem c h2)
            have hlen2 : rest.length ≤ f := by simpa using hlen
            simp [formatGo, hc1, hc2, ih f hlen2 hrest, Except.map]
  unfold pyFormat
  rw [key s.data s.data.length le_rfl h]
  rfl

/-- Witness for C8: `dist/coverage` contains no brace and is returned
unchanged, by `expansion_identity_without_braces` at that string. -/
theorem expansion_identity_without_braces_witness :
    (∀ c ∈ ("dist/coverage" : String).data, c ≠ '{' ∧ c ≠ '}') ∧
    pyFormat [("distdir", "dist"), ("import_path_escaped", "x")] "dist/coverage" =
      Except.ok "dist/coverage" :=
  ⟨by decide,
   expansion_identity_without_braces [("distdir", "dist"), ("import_path_escaped", "x")]
     "dist/coverage" (by decide)⟩

/-- C9: `coverage_output_dir` is deterministic and depends on nothing but
the template, the distdir relative path and the import path — two
configurations agreeing on the template give identical results on equal
inputs, whatever their other fields (no hidden state). -/
theorem coverage_output_dir_deterministic (c c' : GoTestSubsystem) (d d' : DistDir)
    (p p' : String)
    (ht : c.coverage_output_dir_template = c'.coverage_output_dir_template)
    (hd : d.relpath = d'.relpath) (hp : p = p') :
    c.coverage_output_dir d p = c'.coverage_output_dir d' p' := by
  simp [GoTestSubsystem.coverage_output_dir, ht, hd, hp]

/-- Witness for C9: flipping an unrelated field (`force_race`) does not
change the output, by `coverage_output_dir_deterministic` on the default
configuration and its `force_race := true` variant. -/
theorem coverage_output_dir_deterministic_witness :
    ({ GoTestSubsystem.default with force_race := true } :
      GoTestSubsystem).coverage_output_dir ⟨"dist"⟩ "a/b" =
      GoTestSubsystem.default.coverage_output_dir ⟨"dist"⟩ "a/b" :=
  coverage_output_dir_deterministic _ _ _ _ _ _ rfl rfl rfl

/-- C10: the escaping is lossy by design — the distinct import paths `a/b`
and `a_b` collide to the same output path under the default template. -/
theorem escape_collision_lossy :
    GoTestSubsystem.default.coverage_output_dir ⟨"dist"⟩ "a/b" =
      GoTestSubsystem.default.coverage_output_dir ⟨"dist"⟩ "a_b" ∧
    ("a/b" : String) ≠ "a_b" := ⟨rfl, by decide⟩

end GoTest
